import Mathlib

/-!
Verification of the hand_detection_tflite platform shims.

Shallow embedding of the two method-call handlers (Linux and Windows) and of
the Windows registration entry points, translated from
`src/linux/hand_detection_tflite_plugin.cc`,
`src/windows/hand_detection_tflite_plugin.cpp` and
`src/windows/hand_detection_tflite_plugin_c_api.cpp`.
-/

namespace HandDetectionTflite

/-- Values of the Flutter standard method codec, as far as the plugin builds
them: a string, or the other variants the codec supports (modelled so that we
can state that the plugin only ever wraps a string). -/
inductive FlValue where
  | null : FlValue
  | int : Int → FlValue
  | str : String → FlValue
  | list : List FlValue → FlValue
  | map : List (FlValue × FlValue) → FlValue

/-- A method response: `fl_method_success_response_new` / `result->Success`,
`result->Error`, or the not-implemented sentinel
(`fl_method_not_implemented_response_new` / `result->NotImplemented`). -/
inductive MethodResponse where
  | success : FlValue → MethodResponse
  | error : String → MethodResponse
  | notImplemented : MethodResponse

/-- A method invocation delivered on the channel: a method name and the
(possibly null) argument value. -/
structure MethodCall where
  name : String
  args : FlValue

/-- The fields of `struct utsname` as filled in by `uname()` on Linux. -/
structure Utsname where
  sysname : String
  nodename : String
  release : String
  version : String
  machine : String
deriving DecidableEq, Repr

/-- `get_platform_version` from `src/linux/hand_detection_tflite_plugin.cc`
lines 37-43: `g_strdup_printf("Linux %s", uname_data.version)` wrapped into a
success response.  Note the C code reads the `version` field of `utsname`,
not the `release` field. -/
def get_platform_version (u : Utsname) : MethodResponse :=
  MethodResponse.success (FlValue.str ("Linux " ++ u.version))

/-- `hand_detection_tflite_plugin_handle_method_call` from
`src/linux/hand_detection_tflite_plugin.cc` lines 21-35:
`strcmp(method, "getPlatformVersion") == 0` (exact byte-wise string equality)
selects `get_platform_version`; any other name gets the not-implemented
response. -/
def linux_handle_method_call (u : Utsname) (call : MethodCall) : MethodResponse :=
  if call.name = "getPlatformVersion" then
    get_platform_version u
  else
    MethodResponse.notImplemented

/-- The outcome of the three Windows version-helper predicates
(`IsWindows10OrGreater`, `IsWindows8OrGreater`, `IsWindows7OrGreater`) at the
moment of a call. -/
structure WindowsVersionInfo where
  isWindows10OrGreater : Bool
  isWindows8OrGreater : Bool
  isWindows7OrGreater : Bool
deriving DecidableEq, Repr

/-- The string built in `HandDetectionTflitePlugin::HandleMethodCall`
(`src/windows/hand_detection_tflite_plugin.cpp` lines 39-47): the stream
starts with `"Windows "` and the first matching predicate, tested from the
highest version down, appends its suffix; nothing is appended when all three
fail. -/
def windows_version_string (w : WindowsVersionInfo) : String :=
  "Windows " ++
    (if w.isWindows10OrGreater then "10+"
     else if w.isWindows8OrGreater then "8"
     else if w.isWindows7OrGreater then "7"
     else "")

/-- `HandDetectionTflitePlugin::HandleMethodCall` from
`src/windows/hand_detection_tflite_plugin.cpp` lines 35-52:
`method_name().compare("getPlatformVersion") == 0` (exact byte-wise string
equality) selects the version string wrapped as a success; any other name
gets `NotImplemented`. -/
def windows_handle_method_call (w : WindowsVersionInfo) (call : MethodCall) :
    MethodResponse :=
  if call.name = "getPlatformVersion" then
    MethodResponse.success (FlValue.str (windows_version_string w))
  else
    MethodResponse.notImplemented

/-- The Linux plugin instance (`struct _HandDetectionTflitePlugin`,
`src/linux/hand_detection_tflite_plugin.cc` lines 15-17): it declares no
field of its own beyond the GObject base, modelled as a unit placeholder. -/
structure LinuxPluginState where
  parent_instance : Unit
deriving DecidableEq, Repr

/-- The Windows plugin instance (`HandDetectionTflitePlugin`,
`src/windows/hand_detection_tflite_plugin.h` lines 11-25): the class declares
no data member at all. -/
structure WindowsPluginState where
deriving DecidableEq, Repr

/-- The Linux handler with the plugin's state threaded explicitly: the C
function receives `self` and never writes through it, so the embedding
returns the state it was given alongside the response. -/
def linux_handle_method_call_full (self : LinuxPluginState) (u : Utsname)
    (call : MethodCall) : MethodResponse × LinuxPluginState :=
  (linux_handle_method_call u call, self)

/-- The Windows handler with the plugin object's state threaded explicitly:
`HandleMethodCall` writes no member (there are none) and no global, so the
embedding returns the state it was given alongside the response. -/
def windows_handle_method_call_full (self : WindowsPluginState)
    (w : WindowsVersionInfo) (call : MethodCall) :
    MethodResponse × WindowsPluginState :=
  (windows_handle_method_call w call, self)

/-- The C++ registrar object obtained from the host framework for a given
plugin-registrar handle. -/
structure PluginRegistrarWindows where
  handle : Nat
deriving DecidableEq, Repr

/-- The host framework's singleton `PluginRegistrarManager`:
`GetInstance()->GetRegistrar<PluginRegistrarWindows>(h)` deterministically
yields the C++ registrar wrapping the handle `h` (external framework code,
modelled as the canonical map from handle to registrar). -/
def PluginRegistrarManager.getRegistrar (h : Nat) : PluginRegistrarWindows :=
  PluginRegistrarWindows.mk h

/-- The method codec passed when the channel is created; both shims use the
framework's standard codec. -/
inductive MethodCodec where
  | standard
deriving DecidableEq, Repr

/-- What a call to `RegisterWithRegistrar` registers with the framework: the
registrar it targets, the channel name, the codec, and the installed method
handler. -/
structure WindowsRegistration where
  registrar : PluginRegistrarWindows
  channelName : String
  codec : MethodCodec
  handler : WindowsVersionInfo → MethodCall → MethodResponse

/-- `HandDetectionTflitePlugin::RegisterWithRegistrar`
(`src/windows/hand_detection_tflite_plugin.cpp` lines 15-30): creates the
channel named `"hand_detection_tflite"` with the standard codec on the given
registrar and installs a handler that forwards to `HandleMethodCall`. -/
def RegisterWithRegistrar (registrar : PluginRegistrarWindows) :
    WindowsRegistration :=
  WindowsRegistration.mk registrar "hand_detection_tflite" MethodCodec.standard
    (fun w call => windows_handle_method_call w call)

/-- `HandDetectionTflitePluginRegisterWithRegistrar`
(`src/windows/hand_detection_tflite_plugin.cpp` lines 56-62): fetches the
C++ registrar from the singleton manager and delegates to
`RegisterWithRegistrar`. -/
def HandDetectionTflitePluginRegisterWithRegistrar (h : Nat) :
    WindowsRegistration :=
  RegisterWithRegistrar (PluginRegistrarManager.getRegistrar h)

/-- `HandDetectionTflitePluginCApiRegisterWithRegistrar`
(`src/windows/hand_detection_tflite_plugin_c_api.cpp` lines 7-12): fetches
the C++ registrar from the singleton manager and delegates to
`RegisterWithRegistrar`. -/
def HandDetectionTflitePluginCApiRegisterWithRegistrar (h : Nat) :
    WindowsRegistration :=
  RegisterWithRegistrar (PluginRegistrarManager.getRegistrar h)

/-- A concrete `utsname` sample whose `release` and `version` fields differ,
as they do on every real Linux system. -/
def sampleUtsname : Utsname :=
  Utsname.mk "Linux" "host" "5.15.0-generic"
    "#1 SMP Tue Jan 1 00:00:00 UTC 2030" "x86_64"

/-- A concrete predicate outcome for a Windows 10 machine. -/
def win10Info : WindowsVersionInfo :=
  WindowsVersionInfo.mk true true true

/-- C1 counterexample: on a `utsname` whose `release` and `version` fields
differ, the Linux handler does not wrap `"Linux " ++ release`, refuting the
claim as stated. -/
theorem c1_release_counterexample :
    linux_handle_method_call sampleUtsname
        (MethodCall.mk "getPlatformVersion" FlValue.null) ≠
      MethodResponse.success
        (FlValue.str ("Linux " ++ sampleUtsname.release)) := by
  intro hcontra
  have h2 : ("Linux " ++ sampleUtsname.version : String) =
      "Linux " ++ sampleUtsname.release := by
    simpa [linux_handle_method_call, get_platform_version] using hcontra
  exact absurd h2 (by decide)

/-- C1 (amended): on the Linux target, every invocation with method name
`"getPlatformVersion"` gets a success response wrapping `"Linux "`
concatenated with the `version` field (not the `release` field) of the
`utsname` record obtained from `uname()`. -/
theorem c1_linux_version_string (u : Utsname) (call : MethodCall)
    (h : call.name = "getPlatformVersion") :
    linux_handle_method_call u call =
      MethodResponse.success (FlValue.str ("Linux " ++ u.version)) := by
  simp [linux_handle_method_call, get_platform_version, h]

/-- C1 witness: the amended theorem evaluated on the sample `utsname`. -/
theorem c1_linux_version_string_witness :
    linux_handle_method_call sampleUtsname
        (MethodCall.mk "getPlatformVersion" FlValue.null) =
      MethodResponse.success
        (FlValue.str ("Linux " ++ sampleUtsname.version)) :=
  c1_linux_version_string sampleUtsname
    (MethodCall.mk "getPlatformVersion" FlValue.null) rfl

/-- C2: on the Windows target, a `"getPlatformVersion"` invocation returns
`"Windows 10+"` when `IsWindows10OrGreater` holds, else `"Windows 8"` when
`IsWindows8OrGreater` holds, else `"Windows 7"` when `IsWindows7OrGreater`
holds, and the literal `"Windows "` with trailing space when all three fail:
the predicates are tested in descending order, stopping at the first hit. -/
theorem c2_windows_version_tiering (w : WindowsVersionInfo) (call : MethodCall)
    (h : call.name = "getPlatformVersion") :
    windows_handle_method_call w call =
      MethodResponse.success (FlValue.str
        (if w.isWindows10OrGreater then "Windows 10+"
         else if w.isWindows8OrGreater then "Windows 8"
         else if w.isWindows7OrGreater then "Windows 7"
         else "Windows ")) := by
  obtain ⟨w10, w8, w7⟩ := w
  cases w10 <;> cases w8 <;> cases w7 <;>
    simp [windows_handle_method_call, windows_version_string, h]

/-- C2 witness: on a machine whose three predicates all hold (a Windows 10
machine), the response is exactly `"Windows 10+"`. -/
theorem c2_windows_version_tiering_witness :
    windows_handle_method_call win10Info
        (MethodCall.mk "getPlatformVersion" FlValue.null) =
      MethodResponse.success (FlValue.str "Windows 10+") := by
  have h := c2_windows_version_tiering win10Info
    (MethodCall.mk "getPlatformVersion" FlValue.null) rfl
  simpa [win10Info] using h

/-- C3: on both targets, an invocation whose method name is not
`"getPlatformVersion"` gets the not-implemented sentinel and never a
success result. -/
theorem c3_unrecognized_not_implemented (u : Utsname) (w : WindowsVersionInfo)
    (call : MethodCall) (h : call.name ≠ "getPlatformVersion") :
    linux_handle_method_call u call = MethodResponse.notImplemented ∧
    windows_handle_method_call w call = MethodResponse.notImplemented ∧
    (∀ v, linux_handle_method_call u call ≠ MethodResponse.success v) ∧
    (∀ v, windows_handle_method_call w call ≠ MethodResponse.success v) := by
  refine ⟨?_, ?_, ?_, ?_⟩ <;>
    simp [linux_handle_method_call, windows_handle_method_call, h]

/-- C3 witness: the theorem evaluated at the method name `"bogusMethod"`. -/
theorem c3_unrecognized_not_implemented_witness :
    linux_handle_method_call sampleUtsname
        (MethodCall.mk "bogusMethod" FlValue.null) =
      MethodResponse.notImplemented ∧
    windows_handle_method_call win10Info
        (MethodCall.mk "bogusMethod" FlValue.null) =
      MethodResponse.notImplemented :=
  ⟨(c3_unrecognized_not_implemented sampleUtsname win10Info
      (MethodCall.mk "bogusMethod" FlValue.null) (by decide)).1,
   (c3_unrecognized_not_implemented sampleUtsname win10Info
      (MethodCall.mk "bogusMethod" FlValue.null) (by decide)).2.1⟩

/-- C4: on both targets, a `"getPlatformVersion"` invocation gets a success
response wrapping a string value (so never an error, never the
not-implemented sentinel, and never a number, list or map), and on the Linux
target that string starts with the prefix `"Linux "`. -/
theorem c4_success_wraps_string (u : Utsname) (w : WindowsVersionInfo)
    (call : MethodCall) (h : call.name = "getPlatformVersion") :
    (∃ rest, linux_handle_method_call u call =
      MethodResponse.success (FlValue.str ("Linux " ++ rest))) ∧
    (∃ s, windows_handle_method_call w call =
      MethodResponse.success (FlValue.str s)) := by
  exact ⟨⟨u.version, by simp [linux_handle_method_call, get_platform_version, h]⟩,
         ⟨windows_version_string w, by simp [windows_handle_method_call, h]⟩⟩

/-- C4 witness: the theorem evaluated on concrete inputs. -/
theorem c4_success_wraps_string_witness :
    (∃ rest, linux_handle_method_call sampleUtsname
        (MethodCall.mk "getPlatformVersion" FlValue.null) =
      MethodResponse.success (FlValue.str ("Linux " ++ rest))) ∧
    (∃ s, windows_handle_method_call win10Info
        (MethodCall.mk "getPlatformVersion" FlValue.null) =
      MethodResponse.success (FlValue.str s)) :=
  c4_success_wraps_string sampleUtsname win10Info
    (MethodCall.mk "getPlatformVersion" FlValue.null) rfl

/-- C5: on both targets, every invocation produces exactly one outcome:
either a success result or the not-implemented sentinel, never both and
never neither (the handler is a total function in this embedding, so it
always terminates with one of the two). -/
theorem c5_exactly_one_outcome (u : Utsname) (w : WindowsVersionInfo)
    (call : MethodCall) :
    ((∃ v, linux_handle_method_call u call = MethodResponse.success v) ∨
      linux_handle_method_call u call = MethodResponse.notImplemented) ∧
    ¬((∃ v, linux_handle_method_call u call = MethodResponse.success v) ∧
      linux_handle_method_call u call = MethodResponse.notImplemented) ∧
    ((∃ v, windows_handle_method_call w call = MethodResponse.success v) ∨
      windows_handle_method_call w call = MethodResponse.notImplemented) ∧
    ¬((∃ v, windows_handle_method_call w call = MethodResponse.success v) ∧
      windows_handle_method_call w call = MethodResponse.notImplemented) := by
  by_cases h : call.name = "getPlatformVersion" <;>
    simp [linux_handle_method_call, windows_handle_method_call,
      get_platform_version, h]

/-- C6: the handlers are deterministic: with the OS version state unchanged,
any two `"getPlatformVersion"` invocations get the same response string on
both targets. -/
theorem c6_idempotent (u : Utsname) (w : WindowsVersionInfo)
    (ca cb : MethodCall) (ha : ca.name = "getPlatformVersion")
    (hb : cb.name = "getPlatformVersion") :
    linux_handle_method_call u ca = linux_handle_method_call u cb ∧
    windows_handle_method_call w ca = windows_handle_method_call w cb := by
  simp [linux_handle_method_call, windows_handle_method_call, ha, hb]

/-- C6 witness: two concrete invocations with different argument payloads
get the same response. -/
theorem c6_idempotent_witness :
    linux_handle_method_call sampleUtsname
        (MethodCall.mk "getPlatformVersion" FlValue.null) =
      linux_handle_method_call sampleUtsname
        (MethodCall.mk "getPlatformVersion" (FlValue.int 7)) ∧
    windows_handle_method_call win10Info
        (MethodCall.mk "getPlatformVersion" FlValue.null) =
      windows_handle_method_call win10Info
        (MethodCall.mk "getPlatformVersion" (FlValue.int 7)) :=
  c6_idempotent sampleUtsname win10Info
    (MethodCall.mk "getPlatformVersion" FlValue.null)
    (MethodCall.mk "getPlatformVersion" (FlValue.int 7)) rfl rfl

/-- C7: the arguments of a `"getPlatformVersion"` invocation are ignored:
for any two argument values the response is identical on both targets. -/
theorem c7_arguments_ignored (u : Utsname) (w : WindowsVersionInfo)
    (name : String) (a1 a2 : FlValue) (h : name = "getPlatformVersion") :
    linux_handle_method_call u (MethodCall.mk name a1) =
      linux_handle_method_call u (MethodCall.mk name a2) ∧
    windows_handle_method_call w (MethodCall.mk name a1) =
      windows_handle_method_call w (MethodCall.mk name a2) := by
  subst h
  simp [linux_handle_method_call, windows_handle_method_call]

/-- C7 witness: the theorem evaluated at two distinct concrete arguments. -/
theorem c7_arguments_ignored_witness :
    linux_handle_method_call sampleUtsname
        (MethodCall.mk "getPlatformVersion" (FlValue.list [])) =
      linux_handle_method_call sampleUtsname
        (MethodCall.mk "getPlatformVersion" (FlValue.str "x")) ∧
    windows_handle_method_call win10Info
        (MethodCall.mk "getPlatformVersion" (FlValue.list [])) =
      windows_handle_method_call win10Info
        (MethodCall.mk "getPlatformVersion" (FlValue.str "x")) :=
  c7_arguments_ignored sampleUtsname win10Info "getPlatformVersion"
    (FlValue.list []) (FlValue.str "x") rfl

/-- C8: handling a method call leaves the plugin object's state unchanged on
both targets: the state threaded through the handler comes back exactly as
it went in, so nothing outlives a single call. -/
theorem c8_state_unchanged (ls : LinuxPluginState) (ws : WindowsPluginState)
    (u : Utsname) (w : WindowsVersionInfo) (call : MethodCall) :
    (linux_handle_method_call_full ls u call).2 = ls ∧
    (windows_handle_method_call_full ws w call).2 = ws :=
  ⟨rfl, rfl⟩

/-- C9: method-name matching is an exact whole-string comparison on both
targets: the response is the not-implemented sentinel precisely when the
name differs from `"getPlatformVersion"` in any way (letter case,
surrounding whitespace, being a strict prefix or an extension). -/
theorem c9_exact_match (u : Utsname) (w : WindowsVersionInfo) (name : String)
    (a : FlValue) :
    (linux_handle_method_call u (MethodCall.mk name a) =
        MethodResponse.notImplemented ↔ name ≠ "getPlatformVersion") ∧
    (windows_handle_method_call w (MethodCall.mk name a) =
        MethodResponse.notImplemented ↔ name ≠ "getPlatformVersion") := by
  by_cases h : name = "getPlatformVersion" <;>
    simp [linux_handle_method_call, windows_handle_method_call,
      get_platform_version, h]

/-- C10: the two exported Windows C entry points are behaviorally
equivalent: on every registrar handle they produce the same registration,
whose channel name is `"hand_detection_tflite"`, whose codec is the standard
codec, whose registrar is the one the singleton manager yields for that
handle, and whose installed handler is `HandleMethodCall`. -/
theorem c10_entry_points_equivalent (h : Nat) :
    HandDetectionTflitePluginCApiRegisterWithRegistrar h =
      HandDetectionTflitePluginRegisterWithRegistrar h ∧
    (HandDetectionTflitePluginCApiRegisterWithRegistrar h).channelName =
      "hand_detection_tflite" ∧
    (HandDetectionTflitePluginCApiRegisterWithRegistrar h).codec =
      MethodCodec.standard ∧
    (HandDetectionTflitePluginCApiRegisterWithRegistrar h).registrar =
      PluginRegistrarManager.getRegistrar h ∧
    (HandDetectionTflitePluginCApiRegisterWithRegistrar h).handler =
      fun w call => windows_handle_method_call w call :=
  ⟨rfl, rfl, rfl, rfl, rfl⟩

end HandDetectionTflite
